import Mathlib

/-! Shallow embedding of `app/services/splat.py` (class `Splat`) from the
meshtastic-site-planner repository, together with proofs about the terrain
tile resolver, the tile cache, the format converter, the descriptor
generators and the geotiff compositor.

Modelling conventions:
* Python floats are modelled as exact rationals; the transcendental library
  calls the code makes (`math.pi`, `math.cos`, `10 ** x`) are supplied by an
  explicit oracle record (`FloatOps`) holding the values the floating point
  library returns.
* Effectful steps (network, subprocess, file IO) are modelled by oracle
  functions plus explicit event traces, so that statements such as "no second
  network round trip happens" become statements about the emitted trace.
* Python exceptions are modelled by the `PyErr` type; an `except` handler
  that re-raises `RuntimeError` is modelled by mapping any inner error to
  `PyErr.runtimeError`. -/

namespace Splat

/-- Binary content of a file or of a network object, modelled as a list of
byte values. -/
abbrev Bytes := List Nat

/-- Kinds of Python exceptions raised by the code under study. -/
inductive PyErr where
  | attributeError (attr : String)
  | keyError (key : String)
  | valueError
  | fileNotFoundError
  | permissionError
  | runtimeError
  | calledProcessError
deriving DecidableEq

deriving instance DecidableEq for Except

/-- The diskcache `Cache` object, modelled as an association list from string
keys to binary blobs; insertion shadows earlier entries. -/
abbrev TileCache := List (String × Bytes)

/-- Lookup in the tile cache (models both `key in self.tile_cache` and
`self.tile_cache[key]`). -/
def cacheGet (c : TileCache) (k : String) : Option Bytes :=
  match c with
  | [] => none
  | (k2, v) :: rest => if k2 = k then some v else cacheGet rest k

/-- Store into the tile cache (models `self.tile_cache[key] = value`). -/
def cacheSet (c : TileCache) (k : String) (v : Bytes) : TileCache :=
  (k, v) :: c

/-- Decimal digit character, used to model Python's rendering of integers. -/
def digitChar (d : Nat) : Char := Char.ofNat (48 + d)

/-- Little-endian decimal digits of a natural number, computed with explicit
fuel so that the definition is structurally recursive (the fuel `n` always
suffices). -/
def digitsRevAux : Nat → Nat → List Nat
  | 0, _ => []
  | _ + 1, 0 => []
  | fuel + 1, n + 1 => (n + 1) % 10 :: digitsRevAux fuel ((n + 1) / 10)

/-- Little-endian decimal digits of `n` (the empty list for 0). -/
def natDigitList (n : Nat) : List Nat := digitsRevAux n n

/-- Big-endian decimal digit characters of `n` (empty for 0). -/
def natDigitString (n : Nat) : List Char :=
  ((natDigitList n).map digitChar).reverse

/-- Python's `str` of a nonnegative integer. -/
def natRepr (n : Nat) : String :=
  if n = 0 then "0" else String.mk (natDigitString n)

/-- Python's zero-padded decimal formatting `"%0wd" % n` of a natural
number, e.g. format spec `02d` or `03d` used for tile names. -/
def padNat (w n : Nat) : String :=
  String.mk (List.replicate (w - (natDigitString n).length) '0' ++ natDigitString n)

/-- Python's `str` of an arbitrary integer. -/
def pyIntStr (i : Int) : String :=
  if i < 0 then "-" ++ natRepr i.natAbs else natRepr i.natAbs

/-- Value of a big-endian list of decimal digit characters. -/
def decodeDigits (l : List Char) : Nat :=
  l.foldl (fun acc c => 10 * acc + (c.toNat - 48)) 0

/-- Value of a rendered integer, reading an optional leading minus sign. -/
def decodeInt (l : List Char) : Int :=
  if l.head? = some '-' then -(decodeDigits l.tail : Int) else (decodeDigits l : Int)

/-- Predicate selecting the decimal digit characters. -/
def isDigitCh (c : Char) : Prop := 48 ≤ c.toNat ∧ c.toNat ≤ 57

instance : DecidablePred isDigitCh := fun c => by unfold isDigitCh; infer_instance

/-- Rounding of a rational to an integer, ties to even: this is the rounding
Python applies to the scaled value when formatting a float with a fixed
number of decimals. -/
def roundHalfEven (q : ℚ) : ℤ :=
  let f := ⌊q⌋
  let frac := q - f
  if frac < 1 / 2 then f
  else if 1 / 2 < frac then f + 1
  else if f % 2 = 0 then f else f + 1

/-- Python's fixed-point float formatting `"%.nf" % q` with the float value
modelled as the exact rational `q` (the sign of a rounded value of zero is
dropped, which is the only divergence from CPython's `-0.0` rendering). -/
def formatFixed (n : Nat) (q : ℚ) : String :=
  let scaled := roundHalfEven (q * 10 ^ n)
  let sign := if scaled < 0 then "-" else ""
  let m := scaled.natAbs
  sign ++ natRepr (m / 10 ^ n) ++ "." ++ padNat n (m % 10 ^ n)

/-- Number of newline characters in a string. -/
def nlCount (s : String) : Nat := s.data.count '\n'

/-- Helper for `pyLines`: split a character list at newline characters. -/
def splitLinesAux : List Char → List Char → List (List Char)
  | [], acc => [acc.reverse]
  | c :: rest, acc =>
      if c = '\n' then acc.reverse :: splitLinesAux rest []
      else splitLinesAux rest (c :: acc)

/-- Python's `s.split("\n")`: the list of newline-separated segments of `s`
(a trailing newline yields a final empty segment). -/
def pyLines (s : String) : List String :=
  (splitLinesAux s.data []).map String.mk

/-- Oracle recording the values returned by the floating point library for
the transcendental operations the code uses: `math.pi`, `math.cos`, and
`10 ** x`.  Floats themselves are modelled as exact rationals. -/
structure FloatOps where
  pi : ℚ
  cos : ℚ → ℚ
  pow10 : ℚ → ℚ

/-- Python's `math.radians(x)`, which computes `x * (pi / 180)`. -/
def radiansOf (fo : FloatOps) (x : ℚ) : ℚ := x * (fo.pi / 180)

/-- The constant `earth_radius = 6378137` (meters) from
`_calculate_required_terrain_tiles` (line 157). -/
def earthRadius : ℚ := 6378137

/-- Raw terrain tile name emitted at line 183:
hemisphere letter, two-digit latitude, hemisphere letter, three-digit
longitude, `.hgt.gz` extension (e.g. `N35W120.hgt.gz`). -/
def hgtName (latTile lonTile : Int) : String :=
  (if 0 ≤ latTile then "N" else "S") ++ padNat 2 latTile.natAbs ++
    (if 0 ≤ lonTile then "E" else "W") ++ padNat 3 lonTile.natAbs ++ ".hgt.gz"

/-- Standard-resolution descriptor name emitted at line 193:
`lat:lat+1:lon:lon+1.sdf`. -/
def sdfName (latTile lonTile : Int) : String :=
  pyIntStr latTile ++ ":" ++ pyIntStr (latTile + 1) ++ ":" ++
    pyIntStr lonTile ++ ":" ++ pyIntStr (lonTile + 1) ++ ".sdf"

/-- High-resolution descriptor name emitted at line 194:
`lat:lat+1:lon:lon+1-hd.sdf`. -/
def sdfHdName (latTile lonTile : Int) : String :=
  pyIntStr latTile ++ ":" ++ pyIntStr (latTile + 1) ++ ":" ++
    pyIntStr lonTile ++ ":" ++ pyIntStr (lonTile + 1) ++ "-hd.sdf"

/-- Uncurried form of `hgtName`, used for set-image statements. -/
def hgtNameP (p : Int × Int) : String := hgtName p.1 p.2

/-- Uncurried form of `sdfName`. -/
def sdfNameP (p : Int × Int) : String := sdfName p.1 p.2

/-- Uncurried form of `sdfHdName`. -/
def sdfHdNameP (p : Int × Int) : String := sdfHdName p.1 p.2

/-- The geographic bounding box computed by
`_calculate_required_terrain_tiles` (lines 160 to 166). -/
structure BBox where
  latMin : ℚ
  latMax : ℚ
  lonMin : ℚ
  lonMax : ℚ

/-- Bounding box computation from `_calculate_required_terrain_tiles`:
the radius is converted to an angular delta with a fixed Earth radius, and
the longitude delta is divided by the cosine of the latitude. -/
def bboxOf (fo : FloatOps) (lat lon radius : ℚ) : BBox :=
  let deltaDeg := radius / earthRadius * (180 / fo.pi)
  { latMin := lat - deltaDeg
    latMax := lat + deltaDeg
    lonMin := lon - deltaDeg / fo.cos (radiansOf fo lat)
    lonMax := lon + deltaDeg / fo.cos (radiansOf fo lat) }

/-- A unit cell `[i, i+1)` intersects the closed interval `[lo, hi]`. -/
def cellIntersectsInterval (lo hi : ℚ) (i : Int) : Prop :=
  ∃ x : ℚ, lo ≤ x ∧ x ≤ hi ∧ (i : ℚ) ≤ x ∧ x < (i : ℚ) + 1

/-- The 1-degree cell with south-west corner `p` intersects the bounding
box `b` in both axes. -/
def cellIntersectsBox (b : BBox) (p : Int × Int) : Prop :=
  cellIntersectsInterval b.latMin b.latMax p.1 ∧
    cellIntersectsInterval b.lonMin b.lonMax p.2

/-- The integer cells enumerated by the resolver: floors of the bounds,
both ends inclusive (lines 169 to 180). -/
def cellFinset (b : BBox) : Finset (Int × Int) :=
  Finset.Icc ⌊b.latMin⌋ ⌊b.latMax⌋ ×ˢ Finset.Icc ⌊b.lonMin⌋ ⌊b.lonMax⌋

/-- Python's `range(a, b + 1)` over integers. -/
def intRange (a b : Int) : List Int :=
  (List.range (b + 1 - a).toNat).map (fun n : Nat => a + (n : Int))

/-- Result of `_calculate_required_terrain_tiles`: the dictionary with keys
`hgt.gz`, `sdf` and `hd-sdf`, each holding a Python set of filenames. -/
structure TileSets where
  hgtGz : Finset String
  sdf : Finset String
  hdSdf : Finset String

/-- The literal keys of the dictionary returned at line 198. -/
def tileSetKeys : List String := ["hgt.gz", "sdf", "hd-sdf"]

/-- Model of the static method `_calculate_required_terrain_tiles`
(lines 121 to 198): computes the bounding box, floors it to 1-degree cells,
and emits the three name sets. -/
def calculate_required_terrain_tiles (fo : FloatOps) (lat lon radius : ℚ) : TileSets :=
  let b := bboxOf fo lat lon radius
  let latCells := intRange ⌊b.latMin⌋ ⌊b.latMax⌋
  let lonCells := intRange ⌊b.lonMin⌋ ⌊b.lonMax⌋
  { hgtGz := (latCells.flatMap (fun i => lonCells.map (fun j => hgtName i j))).toFinset
    sdf := (latCells.flatMap (fun i => lonCells.map (fun j => sdfName i j))).toFinset
    hdSdf := (latCells.flatMap (fun i => lonCells.map (fun j => sdfHdName i j))).toFinset }

/-- Output specification of the tile index resolver, used by the theorem for
claim C2: the three sets are exactly the images of the covered cell set
under the three injective naming maps, the covered cells are exactly the
cells intersecting the computed bounding box, and all three cardinalities
equal the number of covered cells. -/
def resolverOutputSpec (fo : FloatOps) (lat lon radius : ℚ) : Prop :=
  ((calculate_required_terrain_tiles fo lat lon radius).hgtGz =
        (cellFinset (bboxOf fo lat lon radius)).image hgtNameP ∧
      (calculate_required_terrain_tiles fo lat lon radius).sdf =
        (cellFinset (bboxOf fo lat lon radius)).image sdfNameP ∧
      (calculate_required_terrain_tiles fo lat lon radius).hdSdf =
        (cellFinset (bboxOf fo lat lon radius)).image sdfHdNameP) ∧
    (∀ p : Int × Int, p ∈ cellFinset (bboxOf fo lat lon radius) ↔
      cellIntersectsBox (bboxOf fo lat lon radius) p) ∧
    (Function.Injective hgtNameP ∧ Function.Injective sdfNameP ∧
      Function.Injective sdfHdNameP) ∧
    ((calculate_required_terrain_tiles fo lat lon radius).hgtGz.card =
        (cellFinset (bboxOf fo lat lon radius)).card ∧
      (calculate_required_terrain_tiles fo lat lon radius).sdf.card =
        (cellFinset (bboxOf fo lat lon radius)).card ∧
      (calculate_required_terrain_tiles fo lat lon radius).hdSdf.card =
        (cellFinset (bboxOf fo lat lon radius)).card)

/-- Attributes assigned on `self` by `Splat.__init__` (lines 72 to 115). -/
def splatInitAttrs : List String :=
  ["splat_binary", "splat_hd_binary", "srtm2sdf_binary", "srtm2sdf_hd_binary",
   "tile_cache", "s3", "bucket_name", "bucket_prefix"]

/-- Methods defined by the class `Splat`. -/
def splatMethods : List String :=
  ["__init__", "_calculate_required_terrain_tiles", "_download_terrain_tile",
   "_convert_hgt_to_sdf", "_download_srtm_tiles", "coverage_prediction",
   "_create_qth", "_create_lrp", "_create_dcf", "_create_geotiff"]

/-- Python attribute lookup on a `Splat` instance: instance attributes set by
`__init__`, then class methods; anything else raises `AttributeError`. -/
def lookupSplatAttr (name : String) : Except PyErr Unit :=
  if name ∈ splatInitAttrs ∨ name ∈ splatMethods then Except.ok ()
  else Except.error (PyErr.attributeError name)

/-- The seven radio climates accepted by `_create_lrp` (lines 692 to 700). -/
inductive RadioClimate where
  | equatorial
  | continental_subtropical
  | maritime_subtropical
  | desert
  | continental_temperate
  | maritime_temperate_land
  | maritime_temperate_sea
deriving DecidableEq

/-- Antenna polarization values accepted by `_create_lrp` (line 701). -/
inductive Polarization where
  | horizontal
  | vertical
deriving DecidableEq

/-- The `climate_map` dictionary from `_create_lrp` (lines 732 to 740). -/
def climateMap : RadioClimate → Int
  | .equatorial => 1
  | .continental_subtropical => 2
  | .maritime_subtropical => 3
  | .desert => 4
  | .continental_temperate => 5
  | .maritime_temperate_land => 6
  | .maritime_temperate_sea => 7

/-- The `polarization_map` dictionary from `_create_lrp` (line 741). -/
def polarizationMap : Polarization → Int
  | .horizontal => 0
  | .vertical => 1

/-- Coverage prediction request parameters, with the fields that
`coverage_prediction` reads (the request class itself lives outside the
provided source; the field list is taken from the accesses in
`coverage_prediction`, lines 521 to 589). -/
structure CoveragePredictionRequest where
  lat : ℚ
  lon : ℚ
  radius : ℚ
  tx_height : ℚ
  ground_dielectric : ℚ
  ground_conductivity : ℚ
  atmosphere_bending : ℚ
  frequency_mhz : ℚ
  radio_climate : RadioClimate
  polarization : Polarization
  situation_fraction : ℚ
  time_fraction : ℚ
  tx_power : ℚ
  tx_gain : ℚ
  system_loss : ℚ
  rxh : ℚ
  signal_threshold : ℚ
  colormap : String
  min_dbm : ℚ
  max_dbm : ℚ
  high_resolution : Bool

/-- Model of `_download_srtm_tiles` (lines 359 to 500).  After the
`os.makedirs(path, exist_ok=True)` call (elided, it does not touch `self`),
its first real step (line 385) looks up the method
`self._required_srtm_tiles`, which the class does not define, so the lookup
raises `AttributeError`; everything after that lookup is unreachable and
therefore elided. -/
def download_srtm_tiles (_lat _lon _radius : ℚ) (_path : String)
    (_high_resolution : Bool) : Except PyErr Unit :=
  match lookupSplatAttr "_required_srtm_tiles" with
  | Except.error e => Except.error e
  | Except.ok _ => Except.ok ()

/-- Model of `coverage_prediction` (lines 502 to 639).  Inside the `try`
block the first failing step is the argument `self.cache_path` (line 525),
an attribute `__init__` never sets; the `except Exception` handler at line
637 re-raises every error as `RuntimeError`.  All steps after the failing
attribute read are unreachable and elided. -/
def coverage_prediction (req : CoveragePredictionRequest) : Except PyErr Bytes :=
  let body : Except PyErr Bytes :=
    match lookupSplatAttr "cache_path" with
    | Except.error e => Except.error e
    | Except.ok _ =>
        match download_srtm_tiles req.lat req.lon req.radius "" req.high_resolution with
        | Except.error e => Except.error e
        | Except.ok _ => Except.ok []
  match body with
  | Except.error _ => Except.error PyErr.runtimeError
  | Except.ok r => Except.ok r

/-- Network events emitted by the remote tile fetcher. -/
inductive FetchEvent where
  | s3GetObject (bucket key : String)
deriving DecidableEq

/-- Model of `_download_terrain_tile` (lines 201 to 234): serve from the
cache when present, otherwise issue one `get_object` call against the key
`bucket_prefix/<first three characters>/<tile name>`, store the result in
the cache and return it. -/
def download_terrain_tile (s3 : String → String → Except PyErr Bytes)
    (bucketName bucketFolder : String) (cache : TileCache) (tile_name : String) :
    Except PyErr Bytes × TileCache × List FetchEvent :=
  match cacheGet cache tile_name with
  | some cached => (Except.ok cached, cache, [])
  | none =>
      let key := bucketFolder ++ "/" ++ String.mk (tile_name.data.take 3) ++ "/" ++ tile_name
      match s3 bucketName key with
      | Except.ok tileData =>
          (Except.ok tileData, cacheSet cache tile_name tileData,
            [FetchEvent.s3GetObject bucketName key])
      | Except.error e => (Except.error e, cache, [FetchEvent.s3GetObject bucketName key])

/-- Resampling modes from `rasterio.enums.Resampling`; the code uses
`Resampling.average` (area averaging). -/
inductive Resampling where
  | nearest
  | average
  | bilinear
deriving DecidableEq

/-- An affine geotransform, the coefficient tuple (a, b, c, d, e, f) of the
map (x, y) to (a x + b y + c, d x + e y + f). -/
structure Affine where
  a : ℚ
  b : ℚ
  c : ℚ
  d : ℚ
  e : ℚ
  f : ℚ
deriving DecidableEq

/-- Composition of affine transforms (matrix product of the corresponding
3 by 3 matrices), as implemented by `Affine.__mul__`. -/
def affineMul (t u : Affine) : Affine :=
  { a := t.a * u.a + t.b * u.d
    b := t.a * u.b + t.b * u.e
    c := t.a * u.c + t.b * u.f + t.c
    d := t.d * u.a + t.e * u.d
    e := t.d * u.b + t.e * u.e
    f := t.d * u.c + t.e * u.f + t.f }

/-- The pure scaling transform `Affine.scale(sx, sy)`. -/
def affineScale (sx sy : ℚ) : Affine :=
  { a := sx, b := 0, c := 0, d := 0, e := sy, f := 0 }

/-- Application of an affine transform to a coordinate pair. -/
def affineApply (t : Affine) (x y : ℚ) : ℚ × ℚ :=
  (t.a * x + t.b * y + t.c, t.d * x + t.e * y + t.f)

/-- A raster grid as seen through rasterio: band count, pixel dimensions,
geotransform and cell values. -/
structure Grid where
  count : Nat
  height : Nat
  width : Nat
  transform : Affine
  cells : List Int
deriving DecidableEq

/-- Model of `rasterio.transform.from_bounds(west, south, east, north,
width, height)`: the translation to the north-west corner composed with the
scaling to pixel size `((east - west)/width, (south - north)/height)`. -/
def from_bounds (west south east north : ℚ) (width height : Nat) : Affine :=
  affineMul { a := 1, b := 0, c := west, d := 0, e := 1, f := north }
    (affineScale ((east - west) / (width : ℚ)) ((south - north) / (height : ℚ)))

/-- The geotransform computed by `_create_geotiff` at line 892:
`from_bounds(west, south, east, north, width, height)` where the bounds come
from the KML document and width/height from the decoded image. -/
def create_geotiff_transform (north south east west : ℚ) (width height : Nat) : Affine :=
  from_bounds west south east north width height

/-- Events emitted by the format converter. -/
inductive ConvEvent where
  | gunzipAttempt
  | rasterRead (mode : Resampling) (outCount outHeight outWidth : Nat)
  | rasterWrite (height width : Nat) (transform : Affine)
  | codecRun (binary : String) (input : Bytes)
deriving DecidableEq

/-- Outcome of running the external codec (`srtm2sdf` / `srtm2sdf-hd`):
either the expected `.sdf` file is produced, or the process exits with a
nonzero status, or it exits cleanly without producing the expected file. -/
inductive CodecResult where
  | produced (out : Bytes)
  | exitNonZero
  | noOutputFile
deriving DecidableEq

/-- Oracles for the external effects of `_convert_hgt_to_sdf`: opening a
grid file with rasterio, the values obtained by average resampling, writing
a grid back to a file, running the codec, and gzip decompression proper. -/
structure ConvOracles where
  openRaster : Bytes → Except PyErr Grid
  resampleAvg : Grid → Nat → Nat → List Int
  writeRaster : Grid → Bytes
  runCodec : String → Bytes → CodecResult
  gunzip : Bytes → Bytes

/-- The downsampled grid built at lines 282 to 304: the transform is
composed with `scale(3, 3)`, height and width are divided by 3 (floor), and
the cell values come from an average-resampling read. -/
def downsampleGrid (o : ConvOracles) (g : Grid) : Grid :=
  { count := g.count
    height := g.height / 3
    width := g.width / 3
    transform := affineMul g.transform (affineScale 3 3)
    cells := o.resampleAvg g (g.height / 3) (g.width / 3) }

/-- Model of lines 278 to 340 of `_convert_hgt_to_sdf`: everything after the
tile has been decompressed into the temporary directory.  In standard
resolution the grid is opened, downsampled with average resampling and
written back; then the resolution-appropriate codec binary runs on the file;
on success the produced bytes are cached under `sdf_filename` and returned.
Errors are wrapped into `RuntimeError` by the handlers at lines 342 to 349. -/
def convert_decompressed (o : ConvOracles) (splatPath : String) (cache : TileCache)
    (hgtBytes : Bytes) (sdf_filename : String) (high_resolution : Bool) :
    Except PyErr Bytes × TileCache × List ConvEvent :=
  let staged : Except PyErr (Bytes × List ConvEvent) :=
    match high_resolution with
    | true => Except.ok (hgtBytes, [])
    | false =>
      match o.openRaster hgtBytes with
      | Except.error _ => Except.error PyErr.runtimeError
      | Except.ok src =>
          let g2 := downsampleGrid o src
          Except.ok (o.writeRaster g2,
            [ConvEvent.rasterRead Resampling.average src.count (src.height / 3) (src.width / 3),
             ConvEvent.rasterWrite g2.height g2.width g2.transform])
  match staged with
  | Except.error e => (Except.error e, cache, [])
  | Except.ok (fileBytes, evs) =>
      let binary :=
        match high_resolution with
        | true => splatPath ++ "/srtm2sdf-hd"
        | false => splatPath ++ "/srtm2sdf"
      let evs2 := evs ++ [ConvEvent.codecRun binary fileBytes]
      match o.runCodec binary fileBytes with
      | CodecResult.exitNonZero => (Except.error PyErr.runtimeError, cache, evs2)
      | CodecResult.noOutputFile => (Except.error PyErr.runtimeError, cache, evs2)
      | CodecResult.produced sdfData =>
          (Except.ok sdfData, cacheSet cache sdf_filename sdfData, evs2)

/-- Attributes of a Python `bytes` object (no `read` among them), used to
model the duck-typing check `gzip` performs on its `fileobj` argument. -/
def bytesAttrs : List String :=
  ["capitalize", "center", "count", "decode", "endswith", "find", "hex",
   "index", "join", "lower", "replace", "split", "startswith", "strip", "upper"]

/-- Model of `gzip.GzipFile(fileobj=tile)` followed by `.read()` at lines
274 to 276: reading requires the fileobj to expose a `read` method, which a
`bytes` value does not have, so the read raises `AttributeError`. -/
def gzipFileRead (o : ConvOracles) (fileobjBytes : Bytes) : Except PyErr Bytes :=
  if "read" ∈ bytesAttrs then Except.ok (o.gunzip fileobjBytes)
  else Except.error (PyErr.attributeError "read")

/-- Boolean digit test used to model Python's `int()` on a slice. -/
def isDigitB (c : Char) : Bool := decide (48 ≤ c.toNat) && decide (c.toNat ≤ 57)

/-- Python's `int(s)` restricted to nonempty all-digit strings; anything
else raises `ValueError` (modelled as `none`). -/
def pyIntOfDigits (l : List Char) : Option Nat :=
  match l with
  | [] => none
  | _ => if l.all isDigitB then some (decodeDigits l) else none

/-- Python's slice `s[a:b]` on a string, as a character list. -/
def strSlice (s : String) (a b : Nat) : List Char :=
  (s.data.drop a).take (b - a)

/-- Filename derivation of `_convert_hgt_to_sdf` (lines 256 to 261):
`lat = int(tile_name[1:3])`, `lon = int(tile_name[4:7])` negated when the
letter W occurs in the name (the latitude is never negated), then the
resolution-specific descriptor name is assembled. -/
def convert_sdf_filename (tile_name : String) (high_resolution : Bool) : Option String :=
  match pyIntOfDigits (strSlice tile_name 1 3), pyIntOfDigits (strSlice tile_name 4 7) with
  | some latAbs, some lonAbs =>
      let lat : Int := latAbs
      let lon : Int := (lonAbs : Int) * (if 'W' ∈ tile_name.data then -1 else 1)
      some (if high_resolution then
              pyIntStr lat ++ ":" ++ pyIntStr (lat + 1) ++ ":" ++
                pyIntStr lon ++ ":" ++ pyIntStr (lon + 1) ++ "-hd.sdf"
            else
              pyIntStr lat ++ ":" ++ pyIntStr (lat + 1) ++ ":" ++
                pyIntStr lon ++ ":" ++ pyIntStr (lon + 1) ++ ".sdf")
  | _, _ => none

/-- Model of `_convert_hgt_to_sdf` (lines 236 to 349): derive the
descriptor filename (a malformed tile name makes `int()` raise `ValueError`
outside the `try` block), serve from the cache when the descriptor is
already present, otherwise attempt the gzip decompression, which always
fails for a `bytes` argument; the `except Exception` handler wraps the
failure into `RuntimeError`. -/
def convert_hgt_to_sdf (o : ConvOracles) (splatPath : String) (cache : TileCache)
    (tile : Bytes) (tile_name : String) (high_resolution : Bool) :
    Except PyErr Bytes × TileCache × List ConvEvent :=
  match convert_sdf_filename tile_name high_resolution with
  | none => (Except.error PyErr.valueError, cache, [])
  | some sdf_filename =>
      match cacheGet cache sdf_filename with
      | some cached => (Except.ok cached, cache, [])
      | none =>
          match gzipFileRead o tile with
          | Except.error _ => (Except.error PyErr.runtimeError, cache, [ConvEvent.gunzipAttempt])
          | Except.ok hgtBytes =>
              let r := convert_decompressed o splatPath cache hgtBytes sdf_filename high_resolution
              (r.1, r.2.1, ConvEvent.gunzipAttempt :: r.2.2)

/-- State of the target directory seen by the descriptor generators:
whether it exists and whether it is writable. -/
structure DirState where
  present : Bool
  writable : Bool
deriving DecidableEq

/-- Events emitted by a descriptor generator. -/
inductive GenEvent where
  | formatWork
  | fileWrite (path : String)
deriving DecidableEq

/-- The `.qth` file contents assembled at lines 665 to 670: name, latitude
to 6 decimals, west-positive longitude to 6 decimals, elevation to
2 decimals, one per line. -/
def qthContents (name : String) (latitude longitude elevation : ℚ) : String :=
  name ++ "\n" ++ formatFixed 6 latitude ++ "\n" ++
    formatFixed 6 (if longitude < 0 then |longitude| else 360 - longitude) ++ "\n" ++
    formatFixed 2 elevation ++ "\n"

/-- Model of `_create_qth` (lines 641 to 678): check directory existence and
writability first, then format and write the four-line site descriptor,
returning the file path and contents. -/
def create_qth (dir : DirState) (path name : String)
    (latitude longitude elevation : ℚ) :
    Except PyErr (String × String) × List GenEvent :=
  if dir.present = false then (Except.error PyErr.fileNotFoundError, [])
  else if dir.writable = false then (Except.error PyErr.permissionError, [])
  else
    let qthPath := path ++ "/" ++ name ++ ".qth"
    (Except.ok (qthPath, qthContents name latitude longitude elevation),
      [GenEvent.formatWork, GenEvent.fileWrite qthPath])

/-- The ERP computation of `_create_lrp` at line 744:
`10 ** ((tx_power + tx_gain - system_loss - 30) / 10)`. -/
def erpWatts (fo : FloatOps) (txPower txGain systemLoss : ℚ) : ℚ :=
  fo.pow10 ((txPower + txGain - systemLoss - 30) / 10)

/-- The `.lrp` file contents assembled at lines 752 to 762: nine lines in
fixed order, each carrying a trailing comment. -/
def lrpContents (fo : FloatOps)
    (ground_dielectric ground_conductivity atmosphere_bending frequency_mhz
      situation_fraction time_fraction tx_power tx_gain system_loss : ℚ)
    (radio_climate : RadioClimate) (polarization : Polarization) : String :=
  formatFixed 3 ground_dielectric ++ "  ; Earth Dielectric Constant\n" ++
    formatFixed 6 ground_conductivity ++ "  ; Earth Conductivity\n" ++
    formatFixed 3 atmosphere_bending ++ "  ; Atmospheric Bending Constant\n" ++
    formatFixed 3 frequency_mhz ++ "  ; Frequency in MHz\n" ++
    pyIntStr (climateMap radio_climate) ++ "  ; Radio Climate\n" ++
    pyIntStr (polarizationMap polarization) ++ "  ; Polarization\n" ++
    formatFixed 2 (situation_fraction / 100) ++ " ; Fraction of situations\n" ++
    formatFixed 2 (time_fraction / 100) ++ "  ; Fraction of time\n" ++
    formatFixed 2 (erpWatts fo tx_power tx_gain system_loss) ++ "  ; ERP in Watts\n"

/-- Model of `_create_lrp` (lines 680 to 772): check directory existence and
writability first, then format and write the nine-line propagation
descriptor to `splat.lrp`. -/
def create_lrp (fo : FloatOps) (dir : DirState) (path : String)
    (ground_dielectric ground_conductivity atmosphere_bending frequency_mhz
      situation_fraction time_fraction tx_power tx_gain system_loss : ℚ)
    (radio_climate : RadioClimate) (polarization : Polarization) :
    Except PyErr (String × String) × List GenEvent :=
  if dir.present = false then (Except.error PyErr.fileNotFoundError, [])
  else if dir.writable = false then (Except.error PyErr.permissionError, [])
  else
    let lrpPath := path ++ "/splat.lrp"
    (Except.ok (lrpPath,
        lrpContents fo ground_dielectric ground_conductivity atmosphere_bending
          frequency_mhz situation_fraction time_fraction tx_power tx_gain
          system_loss radio_climate polarization),
      [GenEvent.formatWork, GenEvent.fileWrite lrpPath])

/-- Model of `np.linspace(a, b, num)`. -/
def linspace (a b : ℚ) (num : Nat) : List ℚ :=
  (List.range num).map (fun i => a + (b - a) * (i : ℚ) / ((num : ℚ) - 1))

/-- Model of `_create_dcf` (lines 774 to 823).  Unlike the other two
generators it performs no directory check: it first computes the 32 colormap
sample values and their RGB colors (the formatting work), and only then
opens the output file, so a missing directory surfaces as the
`FileNotFoundError` of `open` and an unwritable one as `PermissionError`,
both raised after the formatting work. -/
def create_dcf (cmapRGB : ℚ → Nat × Nat × Nat) (dir : DirState) (path : String)
    (min_dbm max_dbm : ℚ) : Except PyErr String × List GenEvent :=
  let dcfPath := path ++ "/splat.dcf"
  let cmapValues := linspace max_dbm min_dbm 32
  let _rgbColors := cmapValues.map cmapRGB
  let evs := [GenEvent.formatWork]
  if dir.present = false then (Except.error PyErr.fileNotFoundError, evs)
  else if dir.writable = false then (Except.error PyErr.permissionError, evs)
  else (Except.ok dcfPath, evs ++ [GenEvent.fileWrite dcfPath])

/-- The exact double value of `math.pi`
(3.14159265358979311599796346854...), used for concrete witnesses. -/
def piFloat : ℚ := 884279719003555 / 281474976710656

/-- Concrete float oracle for witnesses: the latitude used with it is 0,
where `math.cos(math.radians(0.0))` is exactly 1.0. -/
def floatOps0 : FloatOps :=
  { pi := piFloat, cos := fun _ => 1, pow10 := fun _ => 1 }

/-- A concrete small grid used by conversion witnesses. -/
def grid0 : Grid :=
  { count := 1, height := 7, width := 8
    transform := { a := 1, b := 0, c := 0, d := 0, e := 1, f := 0 }
    cells := [3, 1, 4, 1, 5] }

/-- A concrete conversion oracle used by witnesses. -/
def convOracles0 : ConvOracles :=
  { openRaster := fun _ => Except.ok grid0
    resampleAvg := fun _ _ _ => [2]
    writeRaster := fun _ => [7, 7]
    runCodec := fun _ _ => CodecResult.produced [9, 9, 9]
    gunzip := fun b => b }

/-- A concrete colormap oracle used by witnesses. -/
def cmapRGB0 : ℚ → Nat × Nat × Nat := fun _ => (0, 0, 0)

/-! Basic lemmas about strings, digits and the decimal encodings. -/

theorem strData_append (s t : String) : (s ++ t).data = s.data ++ t.data := rfl

theorem digitChar_toNat {d : Nat} (h : d < 10) : (digitChar d).toNat = 48 + d := by
  interval_cases d <;> decide

theorem isDigitCh_digitChar {d : Nat} (h : d < 10) : isDigitCh (digitChar d) := by
  unfold isDigitCh
  rw [digitChar_toNat h]
  omega

theorem mem_digitsRevAux {d : Nat} :
    ∀ {fuel n : Nat}, d ∈ digitsRevAux fuel n → d < 10 := by
  intro fuel
  induction fuel with
  | zero => intro n h; simp [digitsRevAux] at h
  | succ fuel ih =>
    intro n h
    match n with
    | 0 => simp [digitsRevAux] at h
    | m + 1 =>
      rw [digitsRevAux] at h
      rcases List.mem_cons.mp h with h | h
      · subst h; exact Nat.mod_lt _ (by norm_num)
      · exact ih h

theorem ofDigits_digitsRevAux :
    ∀ (fuel n : Nat), n ≤ fuel → Nat.ofDigits 10 (digitsRevAux fuel n) = n := by
  intro fuel
  induction fuel with
  | zero => intro n h; interval_cases n; simp [digitsRevAux]
  | succ fuel ih =>
    intro n h
    match n with
    | 0 => simp [digitsRevAux]
    | m + 1 =>
      rw [digitsRevAux, Nat.ofDigits_cons]
      have hdiv : (m + 1) / 10 ≤ fuel := by
        have := Nat.div_lt_self (Nat.succ_pos m) (by norm_num : 1 < 10)
        omega
      rw [ih _ hdiv]
      omega

theorem mem_natDigitList {d n : Nat} (h : d ∈ natDigitList n) : d < 10 :=
  mem_digitsRevAux h

theorem ofDigits_natDigitList (n : Nat) : Nat.ofDigits 10 (natDigitList n) = n :=
  ofDigits_digitsRevAux n n le_rfl

theorem decodeDigits_from (l : List Char) :
    ∀ acc : Nat,
      l.foldl (fun acc c => 10 * acc + (c.toNat - 48)) acc =
        acc * 10 ^ l.length + decodeDigits l := by
  induction l with
  | nil => intro acc; simp [decodeDigits]
  | cons c l ih =>
    intro acc
    have h1 := ih (10 * acc + (c.toNat - 48))
    have h2 := ih (10 * 0 + (c.toNat - 48))
    simp only [List.foldl_cons, List.length_cons, decodeDigits] at h1 h2 ⊢
    rw [h1, h2]
    ring

theorem decodeDigits_rev_map (L : List Nat) (h : ∀ d ∈ L, d < 10) :
    decodeDigits ((L.map digitChar).reverse) = Nat.ofDigits 10 L := by
  induction L with
  | nil => simp [decodeDigits, Nat.ofDigits]
  | cons d L ih =>
    have hd : d < 10 := h d (by simp)
    have hL : ∀ x ∈ L, x < 10 := fun x hx => h x (by simp [hx])
    rw [List.map_cons, List.reverse_cons, Nat.ofDigits_cons]
    unfold decodeDigits
    rw [List.foldl_append]
    have := decodeDigits_from [digitChar d]
        (List.foldl (fun acc c => 10 * acc + (c.toNat - 48)) 0 (L.map digitChar).reverse)
    simp only [List.foldl_cons, List.foldl_nil, List.length_cons, List.length_nil,
      pow_one, pow_zero] at this ⊢
    have hrec : List.foldl (fun acc c => 10 * acc + (c.toNat - 48)) 0
        (L.map digitChar).reverse = Nat.ofDigits 10 L := ih hL
    rw [hrec, digitChar_toNat hd]
    omega

theorem decodeDigits_natDigitString (n : Nat) :
    decodeDigits (natDigitString n) = n := by
  unfold natDigitString
  rw [decodeDigits_rev_map _ (fun d hd => mem_natDigitList hd), ofDigits_natDigitList]

theorem decodeDigits_replicate_zero (k : Nat) (l : List Char) :
    decodeDigits (List.replicate k '0' ++ l) = decodeDigits l := by
  induction k with
  | zero => simp
  | succ k ih =>
    rw [List.replicate_succ]
    unfold decodeDigits at ih ⊢
    simpa using ih

theorem padNat_data (w n : Nat) :
    (padNat w n).data = List.replicate (w - (natDigitString n).length) '0' ++ natDigitString n := rfl

theorem decodeDigits_padNat (w n : Nat) : decodeDigits (padNat w n).data = n := by
  rw [padNat_data, decodeDigits_replicate_zero, decodeDigits_natDigitString]

theorem padNat_inj {w a b : Nat} (h : (padNat w a).data = (padNat w b).data) : a = b := by
  have := congrArg decodeDigits h
  rwa [decodeDigits_padNat, decodeDigits_padNat] at this

theorem natRepr_data (n : Nat) :
    (natRepr n).data = if n = 0 then ['0'] else natDigitString n := by
  unfold natRepr
  split <;> rfl

theorem decodeDigits_natRepr (n : Nat) : decodeDigits (natRepr n).data = n := by
  rw [natRepr_data]
  split
  · subst n; decide
  · exact decodeDigits_natDigitString n

theorem mem_natDigitString_digit {c : Char} {n : Nat} (h : c ∈ natDigitString n) :
    isDigitCh c := by
  unfold natDigitString at h
  rw [List.mem_reverse, List.mem_map] at h
  obtain ⟨d, hd, rfl⟩ := h
  exact isDigitCh_digitChar (mem_natDigitList hd)

theorem mem_padNat_digit {c : Char} {w n : Nat} (h : c ∈ (padNat w n).data) :
    isDigitCh c := by
  rw [padNat_data, List.mem_append] at h
  rcases h with h | h
  · rw [List.eq_of_mem_replicate h]; decide
  · exact mem_natDigitString_digit h

theorem mem_natRepr_digit {c : Char} {n : Nat} (h : c ∈ (natRepr n).data) :
    isDigitCh c := by
  rw [natRepr_data] at h
  split at h
  · simp at h; rw [h]; decide
  · exact mem_natDigitString_digit h

theorem mem_pyIntStr {c : Char} {i : Int} (h : c ∈ (pyIntStr i).data) :
    c = '-' ∨ isDigitCh c := by
  unfold pyIntStr at h
  split at h
  · rw [strData_append] at h
    rcases List.mem_append.mp h with h | h
    · left; simpa using h
    · right; exact mem_natRepr_digit h
  · right; exact mem_natRepr_digit h

theorem natRepr_head_not_minus (n : Nat) : (natRepr n).data.head? ≠ some '-' := by
  intro h
  have hmem : '-' ∈ (natRepr n).data := by
    cases hd : (natRepr n).data with
    | nil => rw [hd] at h; simp at h
    | cons c rest =>
      rw [hd] at h
      simp only [List.head?_cons, Option.some.injEq] at h
      rw [h]
      simp
  have := mem_natRepr_digit hmem
  revert this; decide

theorem decodeInt_minus_cons (l : List Char) :
    decodeInt ('-' :: l) = -(decodeDigits l : Int) := by
  unfold decodeInt
  simp

theorem decodeInt_pyIntStr (i : Int) : decodeInt (pyIntStr i).data = i := by
  by_cases h : i < 0
  · have hdata : (pyIntStr i).data = '-' :: (natRepr i.natAbs).data := by
      unfold pyIntStr; rw [if_pos h]; rfl
    rw [hdata, decodeInt_minus_cons, decodeDigits_natRepr]
    omega
  · have hdata : (pyIntStr i).data = (natRepr i.natAbs).data := by
      unfold pyIntStr; rw [if_neg h]
    rw [hdata]
    unfold decodeInt
    rw [if_neg (natRepr_head_not_minus i.natAbs), decodeDigits_natRepr]
    omega

theorem pyIntStr_inj {a b : Int} (h : pyIntStr a = pyIntStr b) : a = b := by
  have := congrArg (fun s => decodeInt s.data) h
  simpa [decodeInt_pyIntStr] using this

theorem append_sep_inj (P : Char → Prop) {s1 s2 : Char} (hs1 : ¬ P s1) (hs2 : ¬ P s2) :
    ∀ (l1 l2 r1 r2 : List Char), (∀ c ∈ l1, P c) → (∀ c ∈ l2, P c) →
      l1 ++ s1 :: r1 = l2 ++ s2 :: r2 → l1 = l2 ∧ s1 = s2 ∧ r1 = r2 := by
  intro l1
  induction l1 with
  | nil =>
    intro l2 r1 r2 _ h2 heq
    cases l2 with
    | nil => simpa using heq
    | cons c l2' =>
      simp only [List.nil_append, List.cons_append, List.cons.injEq] at heq
      exact absurd (heq.1 ▸ h2 c (by simp)) hs1
  | cons c l1' ih =>
    intro l2 r1 r2 h1 h2 heq
    cases l2 with
    | nil =>
      simp only [List.cons_append, List.nil_append, List.cons.injEq] at heq
      exact absurd (heq.1 ▸ h1 c (by simp)) hs2
    | cons c2 l2' =>
      simp only [List.cons_append, List.cons.injEq] at heq
      obtain ⟨hc, htail⟩ := heq
      obtain ⟨he1, he2, he3⟩ := ih l2' r1 r2 (fun x hx => h1 x (by simp [hx]))
        (fun x hx => h2 x (by simp [hx])) htail
      exact ⟨by rw [hc, he1], he2, he3⟩

/-! Injectivity of the three tile naming maps. -/

theorem mem_pyIntStr_ne_colon {c : Char} {i : Int} (h : c ∈ (pyIntStr i).data) :
    c ≠ ':' := by
  rcases mem_pyIntStr h with h | h
  · rw [h]; decide
  · intro hc
    rw [hc] at h
    revert h; decide

theorem not_isDigitCh_hem (b : Bool) :
    ¬ isDigitCh (if b then 'E' else 'W') := by
  cases b <;> decide

theorem hgtName_data (i j : Int) :
    (hgtName i j).data =
      (if 0 ≤ i then 'N' else 'S') ::
        ((padNat 2 i.natAbs).data ++
          (if 0 ≤ j then 'E' else 'W') ::
            ((padNat 3 j.natAbs).data ++ '.' :: ['h', 'g', 't', '.', 'g', 'z'])) := by
  unfold hgtName
  by_cases h1 : 0 ≤ i <;> by_cases h2 : 0 ≤ j <;>
    simp only [h1, h2, if_true, if_false, strData_append, List.append_assoc] <;> rfl

theorem hgtName_inj : Function.Injective hgtNameP := by
  intro p q h
  have hd : (hgtName p.1 p.2).data = (hgtName q.1 q.2).data := congrArg String.data h
  rw [hgtName_data, hgtName_data] at hd
  rw [List.cons.injEq] at hd
  obtain ⟨hhem, htail⟩ := hd
  have hlon1 : ¬ isDigitCh (if 0 ≤ p.2 then 'E' else 'W') := by
    by_cases hb : 0 ≤ p.2 <;> simp only [hb, if_true, if_false] <;> decide
  have hlon2 : ¬ isDigitCh (if 0 ≤ q.2 then 'E' else 'W') := by
    by_cases hb : 0 ≤ q.2 <;> simp only [hb, if_true, if_false] <;> decide
  obtain ⟨hpad2, hew, hrest⟩ := append_sep_inj isDigitCh hlon1 hlon2 _ _ _ _
    (fun c hc => mem_padNat_digit hc) (fun c hc => mem_padNat_digit hc) htail
  obtain ⟨hpad3, _, _⟩ := append_sep_inj isDigitCh (by decide) (by decide) _ _ _ _
    (fun c hc => mem_padNat_digit hc) (fun c hc => mem_padNat_digit hc) hrest
  have habs1 : p.1.natAbs = q.1.natAbs := padNat_inj hpad2
  have habs2 : p.2.natAbs = q.2.natAbs := padNat_inj hpad3
  have hsign1 : (0 ≤ p.1) = (0 ≤ q.1) := by
    by_cases ha : 0 ≤ p.1 <;> by_cases hb : 0 ≤ q.1 <;>
      simp only [ha, hb, if_true, if_false] at hhem ⊢ <;> simp_all
  have hsign2 : (0 ≤ p.2) = (0 ≤ q.2) := by
    by_cases ha : 0 ≤ p.2 <;> by_cases hb : 0 ≤ q.2 <;>
      simp only [ha, hb, if_true, if_false] at hew ⊢ <;> simp_all
  have h1 : p.1 = q.1 := by
    rcases iff_of_eq hsign1 with ⟨hf, hg⟩
    by_cases ha : 0 ≤ p.1
    · have := hf ha; omega
    · have : ¬ 0 ≤ q.1 := fun hb => ha (hg hb); omega
  have h2 : p.2 = q.2 := by
    rcases iff_of_eq hsign2 with ⟨hf, hg⟩
    by_cases ha : 0 ≤ p.2
    · have := hf ha; omega
    · have : ¬ 0 ≤ q.2 := fun hb => ha (hg hb); omega
  exact Prod.ext h1 h2

theorem sdfName_data (i j : Int) :
    (sdfName i j).data =
      (pyIntStr i).data ++ ':' ::
        ((pyIntStr (i + 1)).data ++ ':' ::
          ((pyIntStr j).data ++ ':' ::
            ((pyIntStr (j + 1)).data ++ ['.', 's', 'd', 'f']))) := by
  unfold sdfName
  simp only [strData_append, List.append_assoc]
  rfl

theorem sdfHdName_data (i j : Int) :
    (sdfHdName i j).data =
      (pyIntStr i).data ++ ':' ::
        ((pyIntStr (i + 1)).data ++ ':' ::
          ((pyIntStr j).data ++ ':' ::
            ((pyIntStr (j + 1)).data ++ ['-', 'h', 'd', '.', 's', 'd', 'f']))) := by
  unfold sdfHdName
  simp only [strData_append, List.append_assoc]
  rfl

theorem colon_split_tail {la lb : List Char} {ra rb : List Char} {ia ib : Int}
    (ha : la = (pyIntStr ia).data ++ ':' :: ra) (hb : lb = (pyIntStr ib).data ++ ':' :: rb)
    (h : la = lb) : ia = ib ∧ ra = rb := by
  rw [ha, hb] at h
  obtain ⟨h1, _, h3⟩ := append_sep_inj (fun c => c ≠ ':') (by simp) (by simp) _ _ _ _
    (fun c hc => mem_pyIntStr_ne_colon hc) (fun c hc => mem_pyIntStr_ne_colon hc) h
  refine ⟨?_, h3⟩
  have := congrArg decodeInt h1
  rwa [decodeInt_pyIntStr, decodeInt_pyIntStr] at this

theorem sdfName_inj : Function.Injective sdfNameP := by
  intro p q h
  have hd : (sdfName p.1 p.2).data = (sdfName q.1 q.2).data := congrArg String.data h
  rw [sdfName_data, sdfName_data] at hd
  obtain ⟨h1, hr1⟩ := colon_split_tail rfl rfl hd
  obtain ⟨_, hr2⟩ := colon_split_tail rfl rfl hr1
  obtain ⟨h3, _⟩ := colon_split_tail rfl rfl hr2
  exact Prod.ext h1 h3

theorem sdfHdName_inj : Function.Injective sdfHdNameP := by
  intro p q h
  have hd : (sdfHdName p.1 p.2).data = (sdfHdName q.1 q.2).data := congrArg String.data h
  rw [sdfHdName_data, sdfHdName_data] at hd
  obtain ⟨h1, hr1⟩ := colon_split_tail rfl rfl hd
  obtain ⟨_, hr2⟩ := colon_split_tail rfl rfl hr1
  obtain ⟨h3, _⟩ := colon_split_tail rfl rfl hr2
  exact Prod.ext h1 h3

/-! Lemmas about the resolver enumeration. -/

theorem mem_intRange {a b k : Int} : k ∈ intRange a b ↔ a ≤ k ∧ k ≤ b := by
  unfold intRange
  simp only [List.mem_map, List.mem_range]
  constructor
  · rintro ⟨n, hn, rfl⟩
    have hcast : (n : Int) < b + 1 - a := by
      rcases le_or_lt 0 (b + 1 - a) with hge | hlt
      · have h4 : ((b + 1 - a).toNat : Int) = b + 1 - a := Int.toNat_of_nonneg hge
        have h5 : (n : Int) < ((b + 1 - a).toNat : Int) := by exact_mod_cast hn
        omega
      · have h4 : (b + 1 - a).toNat = 0 := Int.toNat_of_nonpos (le_of_lt hlt)
        omega
    omega
  · rintro ⟨h1, h2⟩
    refine ⟨(k - a).toNat, ?_, ?_⟩
    · have h3 : ((k - a).toNat : Int) = k - a := Int.toNat_of_nonneg (by omega)
      have h4 : ((b + 1 - a).toNat : Int) = b + 1 - a := Int.toNat_of_nonneg (by omega)
      exact_mod_cast (by omega : ((k - a).toNat : Int) < ((b + 1 - a).toNat : Int))
    · have h3 : ((k - a).toNat : Int) = k - a := Int.toNat_of_nonneg (by omega)
      omega

theorem flatMapNames_toFinset (f : Int × Int → String) (a b c d : Int) :
    ((intRange a b).flatMap (fun i => (intRange c d).map (fun j => f (i, j)))).toFinset
      = ((Finset.Icc a b ×ˢ Finset.Icc c d).image f) := by
  ext s
  simp only [List.mem_toFinset, List.mem_flatMap, List.mem_map, mem_intRange,
    Finset.mem_image, Finset.mem_product, Finset.mem_Icc]
  constructor
  · rintro ⟨i, ⟨hi1, hi2⟩, j, ⟨⟨hj1, hj2⟩, rfl⟩⟩
    exact ⟨(i, j), ⟨⟨hi1, hi2⟩, hj1, hj2⟩, rfl⟩
  · rintro ⟨⟨i, j⟩, ⟨⟨hi1, hi2⟩, hj1, hj2⟩, rfl⟩
    exact ⟨i, ⟨hi1, hi2⟩, j, ⟨⟨hj1, hj2⟩, rfl⟩⟩

theorem mem_floorIcc_iff_intersects {lo hi : ℚ} (h : lo ≤ hi) (i : Int) :
    (⌊lo⌋ ≤ i ∧ i ≤ ⌊hi⌋) ↔ cellIntersectsInterval lo hi i := by
  constructor
  · rintro ⟨h1, h2⟩
    have hub2 : (i : ℚ) ≤ hi := Int.le_floor.mp h2
    have hlb : lo < (i : ℚ) + 1 := by
      have hfl : lo < (⌊lo⌋ : ℚ) + 1 := Int.lt_floor_add_one lo
      have : ((⌊lo⌋ : ℚ) + 1) ≤ (i : ℚ) + 1 := by exact_mod_cast by omega
      linarith
    refine ⟨max lo (i : ℚ), le_max_left _ _, max_le h hub2, le_max_right _ _, ?_⟩
    exact max_lt hlb (by linarith)
  · rintro ⟨x, hlo, hhi, hi1, hi2⟩
    constructor
    · have hx : lo < (i : ℚ) + 1 := lt_of_le_of_lt hlo hi2
      have : ⌊lo⌋ < i + 1 := Int.floor_lt.mpr (by push_cast; linarith)
      omega
    · exact Int.le_floor.mpr (le_trans hi1 hhi)

/-! Newline counting lemmas for the descriptor formats. -/

theorem nlCount_append (s t : String) : nlCount (s ++ t) = nlCount s + nlCount t := by
  unfold nlCount
  rw [strData_append, List.count_append]

theorem isDigitCh_ne_nl {c : Char} (h : isDigitCh c) : c ≠ '\n' := by
  intro hc
  rw [hc] at h
  revert h; decide

theorem formatFixed_nl (n : Nat) (q : ℚ) : nlCount (formatFixed n q) = 0 := by
  unfold nlCount
  rw [List.count_eq_zero]
  intro hmem
  unfold formatFixed at hmem
  simp only [strData_append, List.mem_append] at hmem
  rcases hmem with ((h | h) | h) | h
  · by_cases hs : roundHalfEven (q * 10 ^ n) < 0 <;> simp [hs] at h
  · exact isDigitCh_ne_nl (mem_natRepr_digit h) rfl
  · simp at h
  · exact isDigitCh_ne_nl (mem_padNat_digit h) rfl

theorem pyIntStr_nl (i : Int) : nlCount (pyIntStr i) = 0 := by
  unfold nlCount
  rw [List.count_eq_zero]
  intro hmem
  rcases mem_pyIntStr hmem with h | h
  · exact absurd h (by decide)
  · exact isDigitCh_ne_nl h rfl

/-- Claim C1: for every `CoveragePredictionRequest`, `coverage_prediction`
raises `RuntimeError` and never returns bytes: `__init__` never sets the
attribute `cache_path`, the class defines no method `_required_srtm_tiles`,
the key `tiles` is not among the keys `hgt.gz`, `sdf`, `hd-sdf` returned by
`_calculate_required_terrain_tiles`, and the `except Exception` handler
re-raises every such error as `RuntimeError`. -/
theorem claim_C1_coverage_prediction_always_runtime_error :
    ("cache_path" ∉ splatInitAttrs ∧ "cache_path" ∉ splatMethods ∧
        lookupSplatAttr "cache_path" = Except.error (PyErr.attributeError "cache_path")) ∧
      ("_required_srtm_tiles" ∉ splatInitAttrs ∧ "_required_srtm_tiles" ∉ splatMethods ∧
        ∀ lat lon radius path hr, download_srtm_tiles lat lon radius path hr =
          Except.error (PyErr.attributeError "_required_srtm_tiles")) ∧
      ("tiles" ∉ tileSetKeys ∧ tileSetKeys = ["hgt.gz", "sdf", "hd-sdf"]) ∧
      ∀ req : CoveragePredictionRequest,
        coverage_prediction req = Except.error PyErr.runtimeError :=
  ⟨⟨by decide, by decide, rfl⟩, ⟨by decide, by decide, fun _ _ _ _ _ => rfl⟩,
    ⟨by decide, rfl⟩, fun _ => rfl⟩

/-- Claim C3, evaluation at the failing input: for the southern-hemisphere
tile `S35W120.hgt.gz` (the cell with latitude -35, longitude -120, as the
resolver names it), `_convert_hgt_to_sdf` derives `35:36:-120:-119.sdf`
because it parses the two latitude digits without ever negating them, while
`_calculate_required_terrain_tiles` emits `-35:-34:-120:-119.sdf` for the
same cell; for northern-hemisphere tiles the two functions agree. -/
theorem claim_C3_southern_tile_name_mismatch :
    hgtName (-35) (-120) = "S35W120.hgt.gz" ∧
      sdfName (-35) (-120) = "-35:-34:-120:-119.sdf" ∧
      sdfHdName (-35) (-120) = "-35:-34:-120:-119-hd.sdf" ∧
      convert_sdf_filename "S35W120.hgt.gz" false = some "35:36:-120:-119.sdf" ∧
      convert_sdf_filename "S35W120.hgt.gz" true = some "35:36:-120:-119-hd.sdf" ∧
      convert_sdf_filename "S35W120.hgt.gz" false ≠ some (sdfName (-35) (-120)) ∧
      convert_sdf_filename "S35W120.hgt.gz" true ≠ some (sdfHdName (-35) (-120)) ∧
      convert_sdf_filename "N35W120.hgt.gz" false = some (sdfName 35 (-120)) ∧
      convert_sdf_filename "N35W120.hgt.gz" true = some (sdfHdName 35 (-120)) := by
  with_unfolding_all decide

/-- Claim C9: the geotransform computed by `_create_geotiff` maps pixel
(0,0) to the west/north corner and has pixel sizes `(east - west)/width`
and `(south - north)/height`. -/
theorem claim_C9_geotiff_transform (north south east west : ℚ) (width height : Nat)
    (_hw : 0 < width) (_hh : 0 < height) :
    affineApply (create_geotiff_transform north south east west width height) 0 0 =
        (west, north) ∧
      (create_geotiff_transform north south east west width height).a =
        (east - west) / (width : ℚ) ∧
      (create_geotiff_transform north south east west width height).e =
        (south - north) / (height : ℚ) := by
  unfold create_geotiff_transform from_bounds affineMul affineScale affineApply
  refine ⟨?_, by ring, by ring⟩
  simp only [Prod.mk.injEq]
  constructor <;> ring

/-- Witness for claim C9 at the concrete bounds north 51.2, south 51.0,
east -114.0, west -114.3 with a 300 wide, 200 high image: corner
(-114.3, 51.2) and pixel sizes 0.3/300 and -0.2/200. -/
theorem claim_C9_geotiff_transform_witness :
    (0 < 300 ∧ 0 < 200) ∧
      affineApply (create_geotiff_transform (256 / 5) 51 (-114) (-1143 / 10) 300 200) 0 0 =
        (-1143 / 10, 256 / 5) ∧
      (create_geotiff_transform (256 / 5) 51 (-114) (-1143 / 10) 300 200).a =
        (3 / 10) / 300 ∧
      (create_geotiff_transform (256 / 5) 51 (-114) (-1143 / 10) 300 200).e =
        (-(2 / 10)) / 200 := by
  have h := claim_C9_geotiff_transform (256 / 5) 51 (-114) (-1143 / 10) 300 200
    (by norm_num) (by norm_num)
  refine ⟨⟨by norm_num, by norm_num⟩, h.1, ?_, ?_⟩
  · rw [h.2.1]; norm_num
  · rw [h.2.2]; norm_num


/-- Claim C6: `_create_qth` writes a file of exactly four lines in fixed
order (name, latitude to 6 decimals, west-positive longitude to 6 decimals,
elevation to 2 decimals), and for latitude 51.086311, longitude -114.129409
and elevation 5.0 the third line equals 114.129409. -/
theorem claim_C6_qth_contents (path name : String) (lat lon elev : ℚ)
    (hname : nlCount name = 0) :
    (create_qth ⟨true, true⟩ path name lat lon elev).1 =
        Except.ok (path ++ "/" ++ name ++ ".qth", qthContents name lat lon elev) ∧
      qthContents name lat lon elev =
        name ++ "\n" ++ formatFixed 6 lat ++ "\n" ++
          formatFixed 6 (if lon < 0 then |lon| else 360 - lon) ++ "\n" ++
          formatFixed 2 elev ++ "\n" ∧
      nlCount (qthContents name lat lon elev) = 4 ∧
      pyLines (qthContents "tx" (51086311 / 1000000) (-(114129409 / 1000000)) 5) =
        ["tx", "51.086311", "114.129409", "5.00", ""] ∧
      (pyLines (qthContents "tx" (51086311 / 1000000) (-(114129409 / 1000000)) 5)).getD 2 "" =
        "114.129409" := by
  refine ⟨rfl, rfl, ?_, by with_unfolding_all decide, by with_unfolding_all decide⟩
  unfold qthContents
  simp only [nlCount_append, formatFixed_nl, hname]
  decide

/-- Witness for claim C6 with the site name tx. -/
theorem claim_C6_qth_contents_witness :
    nlCount "tx" = 0 ∧
      (create_qth ⟨true, true⟩ "" "tx" 0 0 0).1 =
        Except.ok ("" ++ "/" ++ "tx" ++ ".qth", qthContents "tx" 0 0 0) ∧
      nlCount (qthContents "tx" 0 0 0) = 4 :=
  ⟨by decide, (claim_C6_qth_contents "" "tx" 0 0 0 (by decide)).1,
    (claim_C6_qth_contents "" "tx" 0 0 0 (by decide)).2.2.1⟩

/-- Claim C7: `_create_lrp` writes exactly nine lines in fixed order, with
the documented decimal precisions, the seven-climate integer map, the
polarization code (horizontal 0, vertical 1), both fractions divided by 100
at 2 decimals, and the ERP in Watts computed as
`10 ** ((tx_power + tx_gain - system_loss - 30) / 10)` at 2 decimals, each
line followed by a comment. -/
theorem claim_C7_lrp_contents (fo : FloatOps) (path : String)
    (gd gc ab fm sf tf tp tg sl : ℚ) (rc : RadioClimate) (pol : Polarization) :
    (create_lrp fo ⟨true, true⟩ path gd gc ab fm sf tf tp tg sl rc pol).1 =
        Except.ok (path ++ "/splat.lrp", lrpContents fo gd gc ab fm sf tf tp tg sl rc pol) ∧
      lrpContents fo gd gc ab fm sf tf tp tg sl rc pol =
        formatFixed 3 gd ++ "  ; Earth Dielectric Constant\n" ++
          formatFixed 6 gc ++ "  ; Earth Conductivity\n" ++
          formatFixed 3 ab ++ "  ; Atmospheric Bending Constant\n" ++
          formatFixed 3 fm ++ "  ; Frequency in MHz\n" ++
          pyIntStr (climateMap rc) ++ "  ; Radio Climate\n" ++
          pyIntStr (polarizationMap pol) ++ "  ; Polarization\n" ++
          formatFixed 2 (sf / 100) ++ " ; Fraction of situations\n" ++
          formatFixed 2 (tf / 100) ++ "  ; Fraction of time\n" ++
          formatFixed 2 (fo.pow10 ((tp + tg - sl - 30) / 10)) ++ "  ; ERP in Watts\n" ∧
      nlCount (lrpContents fo gd gc ab fm sf tf tp tg sl rc pol) = 9 ∧
      (climateMap RadioClimate.equatorial = 1 ∧
        climateMap RadioClimate.continental_subtropical = 2 ∧
        climateMap RadioClimate.maritime_subtropical = 3 ∧
        climateMap RadioClimate.desert = 4 ∧
        climateMap RadioClimate.continental_temperate = 5 ∧
        climateMap RadioClimate.maritime_temperate_land = 6 ∧
        climateMap RadioClimate.maritime_temperate_sea = 7) ∧
      (polarizationMap Polarization.horizontal = 0 ∧
        polarizationMap Polarization.vertical = 1) ∧
      erpWatts fo tp tg sl = fo.pow10 ((tp + tg - sl - 30) / 10) := by
  refine ⟨rfl, rfl, ?_, by decide, by decide, rfl⟩
  unfold lrpContents
  simp only [nlCount_append, formatFixed_nl, pyIntStr_nl]
  decide

/-- Claim C8, counterexample: `_create_dcf` performs its colormap formatting
work before touching the file system, so with a missing target directory the
emitted trace already contains formatting work when the error is raised,
contradicting the claim that all three generators fail before any formatting
work. -/
theorem claim_C8_counterexample_dcf_formats_first :
    create_dcf cmapRGB0 ⟨false, true⟩ "out" (-130) (-80) =
        (Except.error PyErr.fileNotFoundError, [GenEvent.formatWork]) ∧
      ([GenEvent.formatWork] : List GenEvent) ≠ [] := by
  with_unfolding_all decide

/-- Claim C8, amended: `_create_qth` and `_create_lrp` raise an error on a
missing or unwritable target directory before any formatting or file
writing work, while `_create_dcf` performs its colormap formatting work
first and only raises when it opens the output file. -/
theorem claim_C8_amended_fail_fast (dir : DirState) (cm : ℚ → Nat × Nat × Nat)
    (path name : String) (la lo el gd gc ab fm sf tf tp tg sl mind maxd : ℚ)
    (rc : RadioClimate) (pol : Polarization) (fo : FloatOps)
    (hbad : dir.present = false ∨ dir.writable = false) :
    ((create_qth dir path name la lo el).2 = [] ∧
        ∃ err, (create_qth dir path name la lo el).1 = Except.error err) ∧
      ((create_lrp fo dir path gd gc ab fm sf tf tp tg sl rc pol).2 = [] ∧
        ∃ err, (create_lrp fo dir path gd gc ab fm sf tf tp tg sl rc pol).1 =
          Except.error err) ∧
      ((create_dcf cm dir path mind maxd).2 = [GenEvent.formatWork] ∧
        ∃ err, (create_dcf cm dir path mind maxd).1 = Except.error err) := by
  obtain ⟨p, w⟩ := dir
  cases p <;> cases w <;>
    simp_all [create_qth, create_lrp, create_dcf]

/-- Witness for the amended claim C8 at a missing directory. -/
theorem claim_C8_amended_fail_fast_witness :
    ((DirState.mk false false).present = false ∨
        (DirState.mk false false).writable = false) ∧
      (create_qth ⟨false, false⟩ "out" "tx" 0 0 0).2 = [] ∧
      (create_dcf cmapRGB0 ⟨false, false⟩ "out" (-130) (-80)).2 = [GenEvent.formatWork] :=
  ⟨Or.inl rfl,
    (claim_C8_amended_fail_fast ⟨false, false⟩ cmapRGB0 "out" "tx" 0 0 0 0 0 0 0 0 0 0 0 0
      (-130) (-80) RadioClimate.equatorial Polarization.horizontal floatOps0
      (Or.inl rfl)).1.1,
    (claim_C8_amended_fail_fast ⟨false, false⟩ cmapRGB0 "out" "tx" 0 0 0 0 0 0 0 0 0 0 0 0
      (-130) (-80) RadioClimate.equatorial Polarization.horizontal floatOps0
      (Or.inl rfl)).2.2.1⟩

/-- Claim C10: for every tile whose derived descriptor filename is not
already cached, `_convert_hgt_to_sdf` raises `RuntimeError`: the raw tile is
a `bytes` value passed as the `fileobj` argument of `gzip.GzipFile`, and
reading requires a `read` method that `bytes` does not provide, so
decompression fails before the codec is ever invoked and the enclosing
handler wraps the failure into `RuntimeError`. -/
theorem claim_C10_convert_always_runtime_error (o : ConvOracles) (sp : String)
    (cache : TileCache) (tile : Bytes) (tile_name f : String) (hr : Bool)
    (hparse : convert_sdf_filename tile_name hr = some f)
    (hmiss : cacheGet cache f = none) :
    convert_hgt_to_sdf o sp cache tile tile_name hr =
        (Except.error PyErr.runtimeError, cache, [ConvEvent.gunzipAttempt]) ∧
      "read" ∉ bytesAttrs ∧
      ∀ b inp, ConvEvent.codecRun b inp ∉ [ConvEvent.gunzipAttempt] := by
  refine ⟨?_, by decide, by intro b inp h; simp at h⟩
  have hgz : gzipFileRead o tile = Except.error (PyErr.attributeError "read") := by
    unfold gzipFileRead
    rw [if_neg (by decide)]
  unfold convert_hgt_to_sdf
  simp only [hparse, hmiss, hgz]

/-- Witness for claim C10 at the tile `N35W120.hgt.gz` with an empty
cache. -/
theorem claim_C10_convert_always_runtime_error_witness :
    convert_sdf_filename "N35W120.hgt.gz" false = some "35:36:-120:-119.sdf" ∧
      cacheGet [] "35:36:-120:-119.sdf" = none ∧
      convert_hgt_to_sdf convOracles0 "" [] [31, 139] "N35W120.hgt.gz" false =
        (Except.error PyErr.runtimeError, [], [ConvEvent.gunzipAttempt]) :=
  ⟨by with_unfolding_all decide, rfl,
    (claim_C10_convert_always_runtime_error convOracles0 "" [] [31, 139]
      "N35W120.hgt.gz" "35:36:-120:-119.sdf" false
      (by with_unfolding_all decide) rfl).1⟩

/-- Claim C5: fetch and conversion are idempotent through the cache.
Part 1: on a cache miss with a successful fetch, `_download_terrain_tile`
writes the result into the cache before returning it.  Part 2: on a cache
hit it returns the cached bytes with no network event.  Part 3: whenever the
conversion body returns successfully, the final cache maps the descriptor
filename to the returned bytes.  Part 4: when the descriptor filename is
cached, `_convert_hgt_to_sdf` returns the cached bytes with no
decompression, downsampling or codec events. -/
theorem claim_C5_cache_idempotence
    (s3 : String → String → Except PyErr Bytes) (bn bf : String)
    (cache : TileCache) (tn : String) (d : Bytes)
    (o : ConvOracles) (sp : String) (hgt : Bytes) (f : String) (hr : Bool) :
    (cacheGet cache tn = none →
        s3 bn (bf ++ "/" ++ String.mk (tn.data.take 3) ++ "/" ++ tn) = Except.ok d →
        download_terrain_tile s3 bn bf cache tn =
            (Except.ok d, cacheSet cache tn d,
              [FetchEvent.s3GetObject bn
                (bf ++ "/" ++ String.mk (tn.data.take 3) ++ "/" ++ tn)]) ∧
          cacheGet (cacheSet cache tn d) tn = some d) ∧
      (cacheGet cache tn = some d →
        download_terrain_tile s3 bn bf cache tn = (Except.ok d, cache, [])) ∧
      (∀ out, (convert_decompressed o sp cache hgt f hr).1 = Except.ok out →
        cacheGet (convert_decompressed o sp cache hgt f hr).2.1 f = some out) ∧
      (cacheGet cache f = some d → ∀ tile tname hrb,
        convert_sdf_filename tname hrb = some f →
        convert_hgt_to_sdf o sp cache tile tname hrb = (Except.ok d, cache, [])) := by
  refine ⟨?_, ?_, ?_, ?_⟩
  · intro hmiss hok
    refine ⟨?_, by simp [cacheSet, cacheGet]⟩
    unfold download_terrain_tile
    simp only [hmiss, hok]
  · intro hhit
    unfold download_terrain_tile
    simp only [hhit]
  · intro out hok
    unfold convert_decompressed at hok ⊢
    cases hr with
    | true =>
      cases hcr : o.runCodec (sp ++ "/srtm2sdf-hd") hgt with
      | produced sdfData =>
        simp only [hcr] at hok ⊢
        simp [cacheGet, cacheSet, Except.ok.inj hok]
      | exitNonZero => simp only [hcr] at hok; exact Except.noConfusion hok
      | noOutputFile => simp only [hcr] at hok; exact Except.noConfusion hok
    | false =>
      cases hop : o.openRaster hgt with
      | error e => simp only [hop] at hok; exact Except.noConfusion hok
      | ok g =>
        cases hcr : o.runCodec (sp ++ "/srtm2sdf")
            (o.writeRaster (downsampleGrid o g)) with
        | produced sdfData =>
          simp only [hop, hcr] at hok ⊢
          simp [cacheGet, cacheSet, Except.ok.inj hok]
        | exitNonZero => simp only [hop, hcr] at hok; exact Except.noConfusion hok
        | noOutputFile => simp only [hop, hcr] at hok; exact Except.noConfusion hok
  · intro hhit tile tname hrb hparse
    unfold convert_hgt_to_sdf
    simp only [hparse, hhit]

/-- Witness for claim C5: the four parts applied at concrete caches, a
concrete network oracle and the concrete conversion oracle. -/
theorem claim_C5_cache_idempotence_witness :
    (download_terrain_tile (fun _ _ => Except.ok [1, 2]) "elevation-tiles-prod"
          "v2/skadi" [] "N35W120.hgt.gz" =
        (Except.ok [1, 2], cacheSet [] "N35W120.hgt.gz" [1, 2],
          [FetchEvent.s3GetObject "elevation-tiles-prod"
            ("v2/skadi" ++ "/" ++ String.mk (("N35W120.hgt.gz" : String).data.take 3) ++
              "/" ++ "N35W120.hgt.gz")]) ∧
        cacheGet (cacheSet [] "N35W120.hgt.gz" [1, 2]) "N35W120.hgt.gz" = some [1, 2]) ∧
      (download_terrain_tile (fun _ _ => Except.ok [1, 2]) "elevation-tiles-prod"
          "v2/skadi" [("N35W120.hgt.gz", [1, 2])] "N35W120.hgt.gz" =
        (Except.ok [1, 2], [("N35W120.hgt.gz", [1, 2])], [])) ∧
      cacheGet (convert_decompressed convOracles0 "" [] [0] "35:36:-120:-119.sdf"
          false).2.1 "35:36:-120:-119.sdf" = some [9, 9, 9] ∧
      convert_hgt_to_sdf convOracles0 "" [("35:36:-120:-119.sdf", [5])] [0]
          "N35W120.hgt.gz" false =
        (Except.ok [5], [("35:36:-120:-119.sdf", [5])], []) :=
  ⟨(claim_C5_cache_idempotence (fun _ _ => Except.ok [1, 2]) "elevation-tiles-prod"
      "v2/skadi" [] "N35W120.hgt.gz" [1, 2] convOracles0 "" [0] "x" false).1 rfl rfl,
    (claim_C5_cache_idempotence (fun _ _ => Except.ok [1, 2]) "elevation-tiles-prod"
      "v2/skadi" [("N35W120.hgt.gz", [1, 2])] "N35W120.hgt.gz" [1, 2] convOracles0 ""
      [0] "x" false).2.1 (by decide),
    (claim_C5_cache_idempotence (fun _ _ => Except.ok [1, 2]) "elevation-tiles-prod"
      "v2/skadi" [] "N35W120.hgt.gz" [1, 2] convOracles0 "" [0]
      "35:36:-120:-119.sdf" false).2.2.1 [9, 9, 9] (by with_unfolding_all decide),
    (claim_C5_cache_idempotence (fun _ _ => Except.ok [1, 2]) "elevation-tiles-prod"
      "v2/skadi" [("35:36:-120:-119.sdf", [5])] "N35W120.hgt.gz" [5] convOracles0 ""
      [0] "35:36:-120:-119.sdf" false).2.2.2 (by decide) [0] "N35W120.hgt.gz" false
      (by with_unfolding_all decide)⟩

/-- Claim C4: in the conversion body, standard resolution downsamples the
grid by a factor of 3 along both axes with average resampling to floor
dimensions, composes the transform with scale(3,3), and only afterwards
invokes the codec, on the downsampled grid; high resolution skips
downsampling entirely and the codec runs on the native decompressed
bytes. -/
theorem claim_C4_downsample_then_codec (o : ConvOracles) (sp : String)
    (cache : TileCache) (hgtBytes : Bytes) (f : String) (g : Grid)
    (hopen : o.openRaster hgtBytes = Except.ok g) :
    (convert_decompressed o sp cache hgtBytes f false).2.2 =
        [ConvEvent.rasterRead Resampling.average g.count (g.height / 3) (g.width / 3),
         ConvEvent.rasterWrite (g.height / 3) (g.width / 3)
           (affineMul g.transform (affineScale 3 3)),
         ConvEvent.codecRun (sp ++ "/srtm2sdf") (o.writeRaster (downsampleGrid o g))] ∧
      (downsampleGrid o g).height = g.height / 3 ∧
      (downsampleGrid o g).width = g.width / 3 ∧
      (downsampleGrid o g).transform = affineMul g.transform (affineScale 3 3) ∧
      (downsampleGrid o g).cells = o.resampleAvg g (g.height / 3) (g.width / 3) ∧
      (convert_decompressed o sp cache hgtBytes f true).2.2 =
        [ConvEvent.codecRun (sp ++ "/srtm2sdf-hd") hgtBytes] := by
  refine ⟨?_, rfl, rfl, rfl, rfl, ?_⟩
  · unfold convert_decompressed
    simp only [hopen]
    cases hcr : o.runCodec (sp ++ "/srtm2sdf") (o.writeRaster (downsampleGrid o g)) <;>
      simp only [hcr] <;> simp [downsampleGrid]
  · unfold convert_decompressed
    cases hcr : o.runCodec (sp ++ "/srtm2sdf-hd") hgtBytes <;>
      simp only [hcr] <;> simp

/-- Witness for claim C4 at the concrete oracle and a 7 by 8 grid. -/
theorem claim_C4_downsample_then_codec_witness :
    convOracles0.openRaster [0] = Except.ok grid0 ∧
      (convert_decompressed convOracles0 "" [] [0] "f" false).2.2 =
        [ConvEvent.rasterRead Resampling.average grid0.count (grid0.height / 3)
            (grid0.width / 3),
         ConvEvent.rasterWrite (grid0.height / 3) (grid0.width / 3)
           (affineMul grid0.transform (affineScale 3 3)),
         ConvEvent.codecRun ("" ++ "/srtm2sdf")
           (convOracles0.writeRaster (downsampleGrid convOracles0 grid0))] ∧
      (convert_decompressed convOracles0 "" [] [0] "f" true).2.2 =
        [ConvEvent.codecRun ("" ++ "/srtm2sdf-hd") [0]] :=
  ⟨rfl, (claim_C4_downsample_then_codec convOracles0 "" [] [0] "f" grid0 rfl).1,
    (claim_C4_downsample_then_codec convOracles0 "" [] [0] "f" grid0 rfl).2.2.2.2.2⟩

/-- Component equations of the resolver: each returned set is the image of
the floor-range cell rectangle under the corresponding naming map. -/
theorem calc_tiles_hgtGz (fo : FloatOps) (lat lon radius : ℚ) :
    (calculate_required_terrain_tiles fo lat lon radius).hgtGz =
      (cellFinset (bboxOf fo lat lon radius)).image hgtNameP := by
  unfold calculate_required_terrain_tiles cellFinset
  exact flatMapNames_toFinset hgtNameP _ _ _ _

theorem calc_tiles_sdf (fo : FloatOps) (lat lon radius : ℚ) :
    (calculate_required_terrain_tiles fo lat lon radius).sdf =
      (cellFinset (bboxOf fo lat lon radius)).image sdfNameP := by
  unfold calculate_required_terrain_tiles cellFinset
  exact flatMapNames_toFinset sdfNameP _ _ _ _

theorem calc_tiles_hdSdf (fo : FloatOps) (lat lon radius : ℚ) :
    (calculate_required_terrain_tiles fo lat lon radius).hdSdf =
      (cellFinset (bboxOf fo lat lon radius)).image sdfHdNameP := by
  unfold calculate_required_terrain_tiles cellFinset
  exact flatMapNames_toFinset sdfHdNameP _ _ _ _

/-- For a nonnegative radius, a positive float value of pi and a positive
cosine at the center latitude, the computed bounding box is well ordered in
both axes. -/
theorem bboxOf_ordered (fo : FloatOps) (lat lon radius : ℚ)
    (hpi : 0 < fo.pi) (hcos : 0 < fo.cos (radiansOf fo lat)) (hrad : 0 ≤ radius) :
    (bboxOf fo lat lon radius).latMin ≤ (bboxOf fo lat lon radius).latMax ∧
      (bboxOf fo lat lon radius).lonMin ≤ (bboxOf fo lat lon radius).lonMax := by
  unfold bboxOf
  have hdelta : 0 ≤ radius / earthRadius * (180 / fo.pi) := by
    apply mul_nonneg
    · apply div_nonneg hrad
      norm_num [earthRadius]
    · positivity
  have hlon : 0 ≤ radius / earthRadius * (180 / fo.pi) / fo.cos (radiansOf fo lat) :=
    div_nonneg hdelta (le_of_lt hcos)
  constructor <;> simp only <;> linarith

/-- Claim C2: with positive float pi, a positive cosine at the center
latitude (which is what a latitude strictly between -90 and 90 provides)
and a nonnegative radius (the spec constrains the radius to be positive),
the resolver returns three sets that are the images of the covered cell
rectangle under the three injective naming maps; the covered cells are
exactly the 1-degree integer cells intersecting the computed bounding box,
and the three cardinalities all equal the number of covered cells, so the
sets have equal cardinality, one entry per covered cell, no duplicates. -/
theorem claim_C2_resolver_output (fo : FloatOps) (lat lon radius : ℚ)
    (hpi : 0 < fo.pi) (hcos : 0 < fo.cos (radiansOf fo lat)) (hrad : 0 ≤ radius) :
    resolverOutputSpec fo lat lon radius := by
  obtain ⟨hlat, hlon⟩ := bboxOf_ordered fo lat lon radius hpi hcos hrad
  unfold resolverOutputSpec
  refine ⟨⟨calc_tiles_hgtGz fo lat lon radius, calc_tiles_sdf fo lat lon radius,
      calc_tiles_hdSdf fo lat lon radius⟩, ?_, 
    ⟨hgtName_inj, sdfName_inj, sdfHdName_inj⟩, ?_, ?_, ?_⟩
  · intro p
    unfold cellFinset cellIntersectsBox
    rw [Finset.mem_product, Finset.mem_Icc, Finset.mem_Icc]
    exact and_congr (mem_floorIcc_iff_intersects hlat p.1)
      (mem_floorIcc_iff_intersects hlon p.2)
  · rw [calc_tiles_hgtGz]
    exact Finset.card_image_of_injective _ hgtName_inj
  · rw [calc_tiles_sdf]
    exact Finset.card_image_of_injective _ sdfName_inj
  · rw [calc_tiles_hdSdf]
    exact Finset.card_image_of_injective _ sdfHdName_inj

/-- Witness for claim C2 at latitude 0 (where the float cosine is exactly
1), longitude 0 and radius 1000 meters, with the float oracle carrying the
exact double value of `math.pi`. -/
theorem claim_C2_resolver_output_witness :
    (0 : ℚ) < floatOps0.pi ∧
      (0 : ℚ) < floatOps0.cos (radiansOf floatOps0 0) ∧
      (0 : ℚ) ≤ 1000 ∧
      resolverOutputSpec floatOps0 0 0 1000 :=
  ⟨by norm_num [floatOps0, piFloat], by norm_num [floatOps0], by norm_num,
    claim_C2_resolver_output floatOps0 0 0 1000 (by norm_num [floatOps0, piFloat])
      (by norm_num [floatOps0]) (by norm_num)⟩

end Splat
